import Mathlib

/-!
Shallow embedding of the auth-service account lifecycle controller
(src/auth-service/api/api.go) and proofs about its lifecycle operations.

The embedding follows the Go source line by line:

* The `users` table is modelled as a list of `User` records whose fields
  are exactly the columns the source's SQL statements touch:
  `username`, `email`, `hashedPassword`, `password`, `verified`,
  `verifiedToken`, `resetToken`, `userId`.  Note that the source uses TWO
  distinct password columns: `signup` inserts into `hashedPassword`
  (api.go line 123) and `signin` reads `hashedPassword` (line 231), while
  `resetPassword` writes the new hash into the column `password`
  (line 512).  The model keeps both fields, as the table does.
* External collaborators that the spec explicitly places out of scope
  (bcrypt internals, the JWT claims signer, the random token generator,
  the mail notifier, the system clock) are modelled at their contract
  boundary: hashing is a deterministic stand-in satisfying the verifier
  round-trip contract, generated tokens / UUIDs and the current time are
  explicit oracle parameters of each operation, and signing returns the
  claim set itself.
* Each HTTP handler becomes a pure function from the store (plus its
  oracle inputs) to a typed outcome and an updated store, with one
  result constructor per early-return path of the handler.
-/

/-- One row of the `users` table.  Fields are the columns referenced by
the SQL statements in api.go.  `password` and `hashedPassword` are
distinct columns: the INSERT in `signup` and the SELECT in `signin` use
`hashedPassword`, while the UPDATE in `resetPassword` uses `password`. -/
structure User where
  username : String
  email : String
  hashedPassword : String
  password : String
  verified : Bool
  verifiedToken : String
  resetToken : String
  userId : String
deriving DecidableEq, Repr

/-- The `users` table: the only shared mutable state of the service. -/
abbrev Store := List User

/-- Modelled from the spec: bcrypt's `GenerateFromPassword` is an external
collaborator; the core only relies on its output being a non-empty opaque
string that `CompareHashAndPassword` accepts exactly for the original
password.  A deterministic stand-in with that contract. -/
def bcryptHash (password : String) : String :=
  "$2a$10$" ++ password

/-- Modelled from the spec: bcrypt's `CompareHashAndPassword`; succeeds
exactly when the stored hash was produced from the supplied password. -/
def bcryptCompare (hashed password : String) : Bool :=
  hashed == bcryptHash password

/-- Modelled from the spec: the fixed issuer identifier baked into every
session claim set (`defaultJWTIssuer` lives in repository code outside
src/). -/
def defaultJWTIssuer : String := "auth-service"

/-- Modelled from the spec: the access-token TTL, a fixed positive
configuration constant (short), in seconds. -/
def DefaultAccessJWTExpiry : Int := 3600

/-- Modelled from the spec: the refresh-token TTL, a fixed positive
configuration constant (long), in seconds. -/
def DefaultRefreshJWTExpiry : Int := 86400

/-- The claim set of a session token: purpose (`subject`), identity id,
issuer, issued-at and expires-at, exactly the fields built at
api.go lines 136-144, 170-177, 259-267 and 292-299. -/
structure AuthClaims where
  userId : String
  subject : String
  expiresAt : Int
  issuer : String
  issuedAt : Int
deriving DecidableEq, Repr

/-- Modelled from the spec: the claims signer serializes and signs a claim
set; the core only needs the token to carry the claims, so the model's
token is the claim set itself. -/
def setClaims (claims : AuthClaims) : AuthClaims := claims

/-- Outcome of the `signup` handler, one constructor per return path:
409 "this username is taken", 409 "this email is taken", or 201 Created
carrying the two issued session tokens. -/
inductive SignupResult where
  | usernameTaken
  | emailTaken
  | created (accessToken refreshToken : AuthClaims)
deriving DecidableEq, Repr

/-- The `signup` handler (api.go lines 44-204) on a given store.
`newUUID` and `newToken` are the oracle outputs of `uuid.New` and
`GetRandomBase62`; `now` is the clock reading.  Order of effects in the
source: username existence check, email existence check, bcrypt hash,
bcrypt self-check (always passes under the verifier contract), INSERT of
the new row (with `verified` and `resetToken` at their column defaults),
then issuance of the access and refresh tokens. -/
def signup (st : Store) (username email password : String)
    (newUUID newToken : String) (now : Int) : SignupResult × Store :=
  if st.any (fun u => u.username == username) then
    (.usernameTaken, st)
  else if st.any (fun u => u.email == email) then
    (.emailTaken, st)
  else
    let hashed := bcryptHash password
    let newUser : User :=
      { username := username, email := email, hashedPassword := hashed,
        password := "", verified := false, verifiedToken := newToken,
        resetToken := "", userId := newUUID }
    let accessToken := setClaims
      { userId := newUUID, subject := "access",
        expiresAt := now + DefaultAccessJWTExpiry,
        issuer := defaultJWTIssuer, issuedAt := now }
    let refreshToken := setClaims
      { userId := newUUID, subject := "refresh",
        expiresAt := now + DefaultRefreshJWTExpiry,
        issuer := defaultJWTIssuer, issuedAt := now }
    (.created accessToken refreshToken, st ++ [newUser])

/-- Outcome of the `signin` handler, one constructor per return path:
404 "this email is not associated with an account", the
"incorrect password" failure, or success carrying the two issued
session tokens. -/
inductive SigninResult where
  | notFound
  | badCredentials
  | authenticated (accessToken refreshToken : AuthClaims)
deriving DecidableEq, Repr

/-- The `signin` handler (api.go lines 206-315): SELECT the first row with
the given email (`QueryRow`), compare the stored `hashedPassword` against
the supplied password, then issue the access and refresh tokens. -/
def signin (st : Store) (email password : String) (now : Int) : SigninResult :=
  match st.find? (fun u => u.email == email) with
  | none => .notFound
  | some u =>
    if bcryptCompare u.hashedPassword password then
      .authenticated
        (setClaims
          { userId := u.userId, subject := "access",
            expiresAt := now + DefaultAccessJWTExpiry,
            issuer := defaultJWTIssuer, issuedAt := now })
        (setClaims
          { userId := u.userId, subject := "refresh",
            expiresAt := now + DefaultRefreshJWTExpiry,
            issuer := defaultJWTIssuer, issuedAt := now })
    else
      .badCredentials

/-- An HTTP cookie as set by the handlers: name, value and expiry. -/
structure SessionCookie where
  name : String
  value : String
  expires : Int
deriving DecidableEq, Repr

/-- The `logout` handler (api.go lines 317-333): touches no store state and
unconditionally replaces both cookies with empty values whose expiry is
the current time minus the purpose's TTL. -/
def logout (st : Store) (now : Int) : Store × SessionCookie × SessionCookie :=
  (st,
   { name := "access_token", value := "", expires := now - DefaultAccessJWTExpiry },
   { name := "refresh_token", value := "", expires := now - DefaultRefreshJWTExpiry })

/-- A Go value handed to `database/sql` as a query argument.  The `verify`
handler (api.go line 354) passes the whole `[]string` slice obtained from
`r.URL.Query()["token"]`, not its first element, so the embedding has to
distinguish scalar arguments from string-slice arguments. -/
inductive SQLArg where
  | intArg (i : Int)
  | strArg (s : String)
  | strListArg (l : List String)
deriving DecidableEq, Repr

/-- A driver-level SQL parameter value after conversion. -/
inductive SQLValue where
  | intVal (i : Int)
  | strVal (s : String)
deriving DecidableEq, Repr

/-- The `database/sql` default parameter converter: scalar values (and byte
slices) convert, but any other slice — in particular `[]string` — is
rejected with "unsupported type ..., a slice of string", which makes
`DB.Exec` return a nil result and a non-nil error without reaching the
database. -/
def convertArg : SQLArg → Option SQLValue
  | .intArg i => some (.intVal i)
  | .strArg s => some (.strVal s)
  | .strListArg _ => none

/-- The statement `UPDATE users SET verified = ? WHERE verifiedToken = ?`
executed through `DB.Exec` (api.go line 354).  Returns `none` when a
parameter fails driver conversion (the Go `rows == nil` case), otherwise
the updated table.  A numeric token argument is compared through its
string form, as MySQL coerces. -/
def dbExecSetVerified (st : Store) (verified : Int) (tokenArg : SQLArg) :
    Option Store :=
  match convertArg tokenArg with
  | none => none
  | some (.strVal t) =>
      some (st.map fun u =>
        if u.verifiedToken == t then { u with verified := verified != 0 } else u)
  | some (.intVal i) =>
      some (st.map fun u =>
        if u.verifiedToken == toString i then { u with verified := verified != 0 } else u)

/-- Outcome of the `verify` handler: 500 "url Param 'token' is missing",
404 "invalid token" (the `rows == nil` branch), the 400 branch for a
non-nil error with a non-nil result (unreachable under this driver
model), or 200. -/
inductive VerifyResult where
  | missingToken
  | invalidToken
  | ok
deriving DecidableEq, Repr

/-- The `verify` handler (api.go lines 335-370).  `tokens` is the slice
`r.URL.Query()["token"]`; the key is absent exactly when the slice is
empty.  The handler checks presence and non-emptiness of `token[0]`, then
runs the UPDATE passing the whole slice `token` as the parameter. -/
def verify (st : Store) (tokens : List String) : VerifyResult × Store :=
  match tokens with
  | [] => (.missingToken, st)
  | t :: _ =>
    if t.length < 1 then
      (.missingToken, st)
    else
      match dbExecSetVerified st 1 (.strListArg tokens) with
      | none => (.invalidToken, st)
      | some st2 => (.ok, st2)

/-- Outcome of the `sendReset` handler: 406 "invalid email address" or
success (reset notification dispatched). -/
inductive SendResetResult where
  | invalidEmail
  | resetRequested
deriving DecidableEq, Repr

/-- The `sendReset` handler (api.go lines 373-428): rejects an empty email,
generates a reset token (`token` is the oracle output of
`GetRandomBase62`), runs
`UPDATE users SET resetToken = ? WHERE email = ?` — a silent no-op when no
row matches — and sends the notification (external notifier, modelled as
succeeding). -/
def sendReset (st : Store) (email : String) (token : String) :
    SendResetResult × Store :=
  if email = "" then
    (.invalidEmail, st)
  else
    (.resetRequested,
     st.map fun u => if u.email == email then { u with resetToken := token } else u)

/-- Outcome of the `resetPassword` handler, one constructor per return
path: the three 406 empty-field rejections, 404 "username and token pair
does not exist", or success. -/
inductive ResetPasswordResult where
  | invalidUsername
  | invalidEmail
  | invalidPassword
  | pairNotFound
  | passwordChanged
deriving DecidableEq, Repr

/-- The `resetPassword` handler (api.go lines 430-521): non-emptiness
checks on username, email and password; existence check of the
(username, resetToken) pair; bcrypt hash of the new password; then
`UPDATE users SET resetToken = ?, password = ? WHERE email = ?`
(line 512) — the rows selected by the final UPDATE are those matching the
request's EMAIL, and the columns written are `resetToken` and `password`
(not `hashedPassword`). -/
def resetPassword (st : Store) (token username email password : String) :
    ResetPasswordResult × Store :=
  if username = "" then
    (.invalidUsername, st)
  else if email = "" then
    (.invalidEmail, st)
  else if password = "" then
    (.invalidPassword, st)
  else if !(st.any fun u => u.username == username && u.resetToken == token) then
    (.pairNotFound, st)
  else
    let hashed := bcryptHash password
    (.passwordChanged,
     st.map fun u =>
       if u.email == email then { u with resetToken := "", password := hashed } else u)

/-- The externally visible steps of one `signup` run, in source order:
the two uniqueness SELECTs (lines 62, 78), the bcrypt hash (line 97), the
bcrypt self-check of the fresh hash (line 107), the INSERT (line 123),
the two `setClaims` calls (lines 136, 170) and the verification email
(line 195).  Pure in-process steps (uuid / token generation, cookie
writes) have no failure path and are omitted. -/
inductive SignupStep where
  | checkUsername
  | checkEmail
  | hashPassword
  | selfCheck
  | storeInsert
  | issueAccess
  | issueRefresh
  | sendVerification
deriving DecidableEq, Repr, Fintype

/-- Position of a step in the source order of `signup`. -/
def stepIndex : SignupStep → Nat
  | .checkUsername => 0
  | .checkEmail => 1
  | .hashPassword => 2
  | .selfCheck => 3
  | .storeInsert => 4
  | .issueAccess => 5
  | .issueRefresh => 6
  | .sendVerification => 7

/-- The complete source-order step list of a fully successful `signup`. -/
def canonicalSignupOrder : List SignupStep :=
  [.checkUsername, .checkEmail, .hashPassword, .selfCheck, .storeInsert,
   .issueAccess, .issueRefresh, .sendVerification]

/-- Injected outcomes of every external call one `signup` run makes, in the
shape the Go code observes them: the two EXISTS queries yield either a
storage error (`none`) or a boolean, every other call either fails or
succeeds.  The values returned (hash bytes, token strings) do not steer
control flow, so only success/failure is recorded. -/
structure SignupWorld where
  usernameCheck : Option Bool
  emailCheck : Option Bool
  hashOk : Bool
  selfCheckOk : Bool
  insertOk : Bool
  accessSignOk : Bool
  refreshSignOk : Bool
  notifyOk : Bool
deriving DecidableEq, Repr

/-- Classified outcome of an instrumented `signup` run. -/
inductive SignupOutcome where
  | internalError
  | usernameTaken
  | emailTaken
  | hashMismatch
  | createdOk
deriving DecidableEq, Repr

/-- Whether a given step runs to success in world `w` (a failing EXISTS
query, a positive EXISTS answer, and a failing call all abort the
handler). -/
def stepSucceeds (w : SignupWorld) : SignupStep → Bool
  | .checkUsername => w.usernameCheck == some false
  | .checkEmail => w.emailCheck == some false
  | .hashPassword => w.hashOk
  | .selfCheck => w.selfCheckOk
  | .storeInsert => w.insertOk
  | .issueAccess => w.accessSignOk
  | .issueRefresh => w.refreshSignOk
  | .sendVerification => w.notifyOk

/-- The control skeleton of `signup` (api.go lines 44-204) instrumented
with the list of steps it executes: each call site is attempted in source
order and every error branch returns immediately (`http.Error` followed
by `return`). -/
def signupSteps (w : SignupWorld) : List SignupStep × SignupOutcome :=
  match w.usernameCheck with
  | none => ([.checkUsername], .internalError)
  | some true => ([.checkUsername], .usernameTaken)
  | some false =>
  match w.emailCheck with
  | none => ([.checkUsername, .checkEmail], .internalError)
  | some true => ([.checkUsername, .checkEmail], .emailTaken)
  | some false =>
  if !w.hashOk then
    ([.checkUsername, .checkEmail, .hashPassword], .internalError)
  else if !w.selfCheckOk then
    ([.checkUsername, .checkEmail, .hashPassword, .selfCheck], .hashMismatch)
  else if !w.insertOk then
    ([.checkUsername, .checkEmail, .hashPassword, .selfCheck, .storeInsert],
     .internalError)
  else if !w.accessSignOk then
    ([.checkUsername, .checkEmail, .hashPassword, .selfCheck, .storeInsert,
      .issueAccess], .internalError)
  else if !w.refreshSignOk then
    ([.checkUsername, .checkEmail, .hashPassword, .selfCheck, .storeInsert,
      .issueAccess, .issueRefresh], .internalError)
  else if !w.notifyOk then
    (canonicalSignupOrder, .internalError)
  else
    (canonicalSignupOrder, .createdOk)

/-- Boolean matcher for the success constructor of `signin`. -/
def isAuthenticated : SigninResult → Bool
  | .authenticated _ _ => true
  | _ => false

/-- A sample registered identity with no pending reset. -/
def sampleAlice : User :=
  { username := "alice", email := "alice@x.com",
    hashedPassword := bcryptHash "pw1", password := "",
    verified := false, verifiedToken := "vtok01", resetToken := "",
    userId := "uuid-alice" }

/-- A sample registered identity with a pending reset token. -/
def sampleBob : User :=
  { username := "bob", email := "bob@x.com",
    hashedPassword := bcryptHash "pwB", password := "",
    verified := false, verifiedToken := "vtok02", resetToken := "rtokB",
    userId := "uuid-bob" }

theorem map_eq_self_of_fixed {α : Type} (l : List α) (f : α → α)
    (h : ∀ x ∈ l, f x = x) : l.map f = l := by
  induction l with
  | nil => rfl
  | cons a t ih =>
    simp only [List.map_cons]
    rw [h a (by simp), ih fun x hx => h x (by simp [hx])]

/-- C3: for every store containing an identity with username `username`, a
signup request with that username (and any email) returns the 409
username-conflict failure and leaves the store exactly as it was: the
handler returns before the email check, the hash, the INSERT and token
issuance. -/
theorem signup_existing_username_conflict
    (st : Store) (u : User) (username email password newUUID newToken : String)
    (now : Int) (hmem : u ∈ st) (hname : u.username = username) :
    signup st username email password newUUID newToken now =
      (.usernameTaken, st) := by
  have hany : st.any (fun v => v.username == username) = true :=
    List.any_eq_true.mpr ⟨u, hmem, by simp [hname]⟩
  simp [signup, hany]

/-- Witness for `signup_existing_username_conflict` on a concrete store. -/
theorem signup_existing_username_conflict_witness :
    signup [sampleAlice] "alice" "new@x.com" "pw9" "uuid-9" "tok9" 5 =
      (.usernameTaken, [sampleAlice]) :=
  signup_existing_username_conflict [sampleAlice] sampleAlice "alice"
    "new@x.com" "pw9" "uuid-9" "tok9" 5 (by simp) rfl

/-- C5: whenever the signin SELECT finds a row for the supplied email but
the stored `hashedPassword` does not verify against the supplied
password, the handler returns the "incorrect password" failure — a
constructor carrying no claims, so no access or refresh token is
issued. -/
theorem signin_wrong_password_bad_credentials
    (st : Store) (email password : String) (now : Int) (u : User)
    (hfind : st.find? (fun v => v.email == email) = some u)
    (hcmp : bcryptCompare u.hashedPassword password = false) :
    signin st email password now = .badCredentials := by
  simp [signin, hfind, hcmp]

/-- Witness for `signin_wrong_password_bad_credentials` on a concrete
store. -/
theorem signin_wrong_password_bad_credentials_witness :
    signin [sampleAlice] "alice@x.com" "wrong" 5 = .badCredentials :=
  signin_wrong_password_bad_credentials [sampleAlice] "alice@x.com" "wrong" 5
    sampleAlice (by decide) (by decide)

/-- C8: logout touches no store state, produces the same two replacement
cookies whatever the prior state was, their values are empty, their
expiry is exactly now minus the purpose's TTL — hence strictly in the
past — and running logout twice from the same instant has the same
effect as running it once. -/
theorem logout_expires_past_idempotent (st stB : Store) (now : Int) :
    (logout st now).fst = st ∧
    (logout st now).snd = (logout stB now).snd ∧
    (logout st now).snd.fst.value = "" ∧
    (logout st now).snd.snd.value = "" ∧
    (logout st now).snd.fst.expires = now - DefaultAccessJWTExpiry ∧
    (logout st now).snd.snd.expires = now - DefaultRefreshJWTExpiry ∧
    (logout st now).snd.fst.expires < now ∧
    (logout st now).snd.snd.expires < now ∧
    logout (logout st now).fst now = logout st now := by
  refine ⟨rfl, rfl, rfl, rfl, rfl, rfl, ?_, ?_, rfl⟩ <;>
    simp [logout, DefaultAccessJWTExpiry, DefaultRefreshJWTExpiry]

/-- C9: for a non-empty email, `sendReset` reports the same success outcome
on a store with no matching identity as on any other store (so the
response does not reveal account existence), and on a store with no
matching identity the UPDATE is a silent no-op. -/
theorem sendReset_uniform_success
    (st stB : Store) (email token : String) (hne : email ≠ "")
    (habsent : ∀ u ∈ st, u.email ≠ email) :
    (sendReset st email token).fst = .resetRequested ∧
    (sendReset st email token).fst = (sendReset stB email token).fst ∧
    (sendReset st email token).snd = st := by
  refine ⟨by simp [sendReset, hne], by simp [sendReset, hne], ?_⟩
  simp only [sendReset, hne, if_neg (by exact hne)]
  exact map_eq_self_of_fixed st _ fun u hu => by simp [habsent u hu]

/-- Witness for `sendReset_uniform_success`: a store without the target
email against a store that has it. -/
theorem sendReset_uniform_success_witness :
    (sendReset [sampleBob] "alice@x.com" "T42").fst =
      SendResetResult.resetRequested ∧
    (sendReset [sampleBob] "alice@x.com" "T42").fst =
      (sendReset [sampleAlice, sampleBob] "alice@x.com" "T42").fst ∧
    (sendReset [sampleBob] "alice@x.com" "T42").snd = [sampleBob] :=
  sendReset_uniform_success [sampleBob] [sampleAlice, sampleBob]
    "alice@x.com" "T42" (by decide) (by decide)

/-- C4: given non-empty username, email and password (and no internal
failure, which the pure store model has none of), `resetPassword` returns
success exactly when some row matches the (username, resetToken) pair of
the request; when no row matches, it returns the 404 pair-not-found
failure and the store is untouched. -/
theorem resetPassword_success_iff_pair_matches
    (st : Store) (token username email password : String)
    (hu : username ≠ "") (he : email ≠ "") (hp : password ≠ "") :
    ((resetPassword st token username email password).fst =
        ResetPasswordResult.passwordChanged ↔
      (st.any fun u => u.username == username && u.resetToken == token) = true) ∧
    ((st.any fun u => u.username == username && u.resetToken == token) = false →
      resetPassword st token username email password = (.pairNotFound, st)) := by
  constructor
  · by_cases hex :
      (st.any fun u => u.username == username && u.resetToken == token) = true
    · simp [resetPassword, hu, he, hp, hex]
    · simp [resetPassword, hu, he, hp, hex]
  · intro hex
    simp [resetPassword, hu, he, hp, hex]

/-- Witness for `resetPassword_success_iff_pair_matches` on a concrete
store with a pending reset. -/
theorem resetPassword_success_iff_pair_matches_witness :
    ((resetPassword [sampleBob] "rtokB" "bob" "bob@x.com" "pw9").fst =
        ResetPasswordResult.passwordChanged ↔
      ([sampleBob].any fun u => u.username == "bob" && u.resetToken == "rtokB") = true) ∧
    (([sampleBob].any fun u => u.username == "bob" && u.resetToken == "rtokB") = false →
      resetPassword [sampleBob] "rtokB" "bob" "bob@x.com" "pw9" =
        (.pairNotFound, [sampleBob])) :=
  resetPassword_success_iff_pair_matches [sampleBob] "rtokB" "bob" "bob@x.com"
    "pw9" (by decide) (by decide) (by decide)

/-- C10: when the request's username and email belong to two different
identities and the (username, resetToken) pair matches, `resetPassword`
still succeeds, and the final UPDATE — keyed on the request's EMAIL —
rewrites exactly the email-matching rows (clearing `resetToken` and
writing the new hash into the `password` column), while the identity
that passed the token check, whose email differs, survives unchanged in
the store. -/
theorem resetPassword_mutates_email_identity
    (st : Store) (token username email password : String)
    (hu : username ≠ "") (he : email ≠ "") (hp : password ≠ "")
    (u : User) (humem : u ∈ st)
    (huname : u.username = username) (hutok : u.resetToken = token)
    (hudiff : u.email ≠ email) :
    (resetPassword st token username email password).fst =
      ResetPasswordResult.passwordChanged ∧
    (resetPassword st token username email password).snd =
      st.map (fun w => if w.email == email
        then { w with resetToken := "", password := bcryptHash password }
        else w) ∧
    u ∈ (resetPassword st token username email password).snd := by
  have hex : (st.any fun v => v.username == username && v.resetToken == token) = true :=
    List.any_eq_true.mpr ⟨u, humem, by simp [huname, hutok]⟩
  refine ⟨by simp [resetPassword, hu, he, hp, hex], by simp [resetPassword, hu, he, hp, hex], ?_⟩
  have hmap : u ∈ st.map (fun w => if w.email == email
      then { w with resetToken := "", password := bcryptHash password }
      else w) := by
    have himg := List.mem_map_of_mem (fun w => if w.email == email
      then { w with resetToken := "", password := bcryptHash password }
      else w) humem
    simpa [hudiff] using himg
  simpa [resetPassword, hu, he, hp, hex] using hmap

/-- Witness for `resetPassword_mutates_email_identity`: bob holds the
matching (username, resetToken) pair while the email in the request is
alice's. -/
theorem resetPassword_mutates_email_identity_witness :
    (resetPassword [sampleAlice, sampleBob] "rtokB" "bob" "alice@x.com" "pw9").fst =
      ResetPasswordResult.passwordChanged ∧
    (resetPassword [sampleAlice, sampleBob] "rtokB" "bob" "alice@x.com" "pw9").snd =
      [sampleAlice, sampleBob].map (fun w => if w.email == "alice@x.com"
        then { w with resetToken := "", password := bcryptHash "pw9" }
        else w) ∧
    sampleBob ∈ (resetPassword [sampleAlice, sampleBob] "rtokB" "bob" "alice@x.com" "pw9").snd :=
  resetPassword_mutates_email_identity [sampleAlice, sampleBob] "rtokB" "bob"
    "alice@x.com" "pw9" (by decide) (by decide) (by decide) sampleBob
    (by simp) rfl rfl (by decide)

/-- C7: every access/refresh token pair issued by a successful signup or
signin carries subject "access" / "refresh", the identity's id (the
fresh UUID for signup, the stored `userId` for signin), the fixed
issuer, issued-at equal to the clock reading, and expires-at equal to
that reading plus the purpose-specific TTL. -/
theorem issued_session_claims
    (st st2 sti : Store) (username email password newUUID newToken : String)
    (emaili pwi : String) (now nowi : Int) (a r ai ri : AuthClaims) (u : User)
    (hsu : signup st username email password newUUID newToken now =
      (.created a r, st2))
    (hfind : sti.find? (fun v => v.email == emaili) = some u)
    (hsi : signin sti emaili pwi nowi = .authenticated ai ri) :
    (a.subject = "access" ∧ a.userId = newUUID ∧ a.issuer = defaultJWTIssuer ∧
      a.issuedAt = now ∧ a.expiresAt = now + DefaultAccessJWTExpiry) ∧
    (r.subject = "refresh" ∧ r.userId = newUUID ∧ r.issuer = defaultJWTIssuer ∧
      r.issuedAt = now ∧ r.expiresAt = now + DefaultRefreshJWTExpiry) ∧
    (ai.subject = "access" ∧ ai.userId = u.userId ∧ ai.issuer = defaultJWTIssuer ∧
      ai.issuedAt = nowi ∧ ai.expiresAt = nowi + DefaultAccessJWTExpiry) ∧
    (ri.subject = "refresh" ∧ ri.userId = u.userId ∧ ri.issuer = defaultJWTIssuer ∧
      ri.issuedAt = nowi ∧ ri.expiresAt = nowi + DefaultRefreshJWTExpiry) := by
  have hsigninPart :
      (ai.subject = "access" ∧ ai.userId = u.userId ∧
        ai.issuer = defaultJWTIssuer ∧ ai.issuedAt = nowi ∧
        ai.expiresAt = nowi + DefaultAccessJWTExpiry) ∧
      (ri.subject = "refresh" ∧ ri.userId = u.userId ∧
        ri.issuer = defaultJWTIssuer ∧ ri.issuedAt = nowi ∧
        ri.expiresAt = nowi + DefaultRefreshJWTExpiry) := by
    cases hc : bcryptCompare u.hashedPassword pwi
    · simp [signin, hfind, hc] at hsi
    · simp only [signin, hfind, hc, setClaims, if_true] at hsi
      obtain ⟨hai, hri⟩ := SigninResult.authenticated.inj hsi
      subst hai; subst hri
      exact ⟨⟨rfl, rfl, rfl, rfl, rfl⟩, rfl, rfl, rfl, rfl, rfl⟩
  cases h1 : st.any (fun v => v.username == username)
  · cases h2 : st.any (fun v => v.email == email)
    · simp only [signup, h1, h2, Bool.false_eq_true, if_false, setClaims] at hsu
      obtain ⟨hcr, -⟩ := Prod.mk.inj hsu
      obtain ⟨ha, hr⟩ := SignupResult.created.inj hcr
      subst ha; subst hr
      exact ⟨⟨rfl, rfl, rfl, rfl, rfl⟩, ⟨rfl, rfl, rfl, rfl, rfl⟩,
        hsigninPart.1, hsigninPart.2⟩
    · simp [signup, h1, h2] at hsu
  · simp [signup, h1] at hsu

set_option maxHeartbeats 2000000 in
/-- C6: in every world of injected call outcomes, the steps an
instrumented signup run executes are an initial segment of the source
order (uniqueness checks, then hashing and its self-check, then the
INSERT, then access and refresh issuance, then the verification email),
the run reaches the Created outcome only when every step ran, and a
step only ever runs after every earlier step has succeeded — so no later
step executes once an earlier one fails. -/
theorem signup_steps_in_source_order (w : SignupWorld) :
    (signupSteps w).fst =
      canonicalSignupOrder.take (signupSteps w).fst.length ∧
    ((signupSteps w).snd = SignupOutcome.createdOk →
      (signupSteps w).fst = canonicalSignupOrder) ∧
    (∀ s t : SignupStep, stepIndex s < stepIndex t →
      t ∈ (signupSteps w).fst → stepSucceeds w s = true) := by
  obtain ⟨u, e, h, sc, ins, acc, rfr, ntf⟩ := w
  rcases u with _ | (_ | _) <;> rcases e with _ | (_ | _) <;>
    cases h <;> cases sc <;> cases ins <;> cases acc <;> cases rfr <;>
    cases ntf <;> decide

/-- The store after the scenario's signup of alice (clock fixed at 0,
oracle UUID and verification token fixed). -/
def scenarioStore1 : Store :=
  (signup [] "alice" "alice@x.com" "pw1" "uuid-alice" "vtok01" 0).snd

/-- The store after the scenario's reset request for alice's email, with
oracle reset token "T42". -/
def scenarioStore2 : Store :=
  (sendReset scenarioStore1 "alice@x.com" "T42").snd

/-- The store after the scenario's reset completion
CompleteReset(alice, alice@x.com, pw2, T42). -/
def scenarioStore3 : Store :=
  (resetPassword scenarioStore2 "T42" "alice" "alice@x.com" "pw2").snd

/-- C1: evaluation of the spec's end-to-end scenario on the embedded code.
The first four steps behave as the scenario asks, but after the
successful CompleteReset the final UPDATE (api.go line 512) wrote the new
hash into the `password` column while `signin` (line 231) checks
`hashedPassword`, which still holds the hash of "pw1".  Hence signin with
the OLD password "pw1" still authenticates and signin with the NEW
password "pw2" fails with the bad-credentials error — the opposite of the
claimed outcome. -/
theorem scenario_reset_leaves_old_password_valid :
    isAuthenticated (signin scenarioStore1 "alice@x.com" "pw1" 0) = true ∧
    signin scenarioStore1 "alice@x.com" "wrong" 0 = .badCredentials ∧
    (sendReset scenarioStore1 "alice@x.com" "T42").fst = .resetRequested ∧
    (resetPassword scenarioStore2 "T42" "alice" "alice@x.com" "pw2").fst =
      ResetPasswordResult.passwordChanged ∧
    signin scenarioStore3 "alice@x.com" "pw2" 0 = .badCredentials ∧
    isAuthenticated (signin scenarioStore3 "alice@x.com" "pw1" 0) = true ∧
    (∀ u ∈ scenarioStore3, u.hashedPassword = bcryptHash "pw1") := by
  decide

/-- C2: evaluation of `verify` at the CORRECT verification token.  The
handler passes the whole `[]string` query-parameter slice as the SQL
argument (api.go line 354), the driver rejects the slice, `DB.Exec`
returns a nil result, and the handler takes the 404 "invalid token"
branch: the identity holding exactly this token is NOT marked verified
and the store is unchanged.  The other half of the claim — a token
matching no identity yields the invalid-token failure and no mutation —
does hold, as the second conjunct shows. -/
theorem verify_rejects_correct_token :
    sampleAlice.verifiedToken = "vtok01" ∧
    sampleAlice.verified = false ∧
    verify [sampleAlice] ["vtok01"] = (.invalidToken, [sampleAlice]) ∧
    verify [sampleAlice] ["wrong!"] = (.invalidToken, [sampleAlice]) := by
  decide

/-- The access claim set signup issues for alice at clock 0. -/
def witAccessClaims : AuthClaims :=
  { userId := "uuid-alice", subject := "access", expiresAt := 3600,
    issuer := "auth-service", issuedAt := 0 }

/-- The refresh claim set signup issues for alice at clock 0. -/
def witRefreshClaims : AuthClaims :=
  { userId := "uuid-alice", subject := "refresh", expiresAt := 86400,
    issuer := "auth-service", issuedAt := 0 }

/-- The access claim set signin issues for bob at clock 10. -/
def witBobAccess : AuthClaims :=
  { userId := "uuid-bob", subject := "access", expiresAt := 3610,
    issuer := "auth-service", issuedAt := 10 }

/-- The refresh claim set signin issues for bob at clock 10. -/
def witBobRefresh : AuthClaims :=
  { userId := "uuid-bob", subject := "refresh", expiresAt := 86410,
    issuer := "auth-service", issuedAt := 10 }

/-- Witness for `issued_session_claims`: a concrete signup of alice on the
empty store at clock 0 and a concrete signin of bob at clock 10. -/
theorem issued_session_claims_witness :
    (witAccessClaims.subject = "access" ∧ witAccessClaims.userId = "uuid-alice" ∧
      witAccessClaims.issuer = defaultJWTIssuer ∧ witAccessClaims.issuedAt = 0 ∧
      witAccessClaims.expiresAt = 0 + DefaultAccessJWTExpiry) ∧
    (witRefreshClaims.subject = "refresh" ∧ witRefreshClaims.userId = "uuid-alice" ∧
      witRefreshClaims.issuer = defaultJWTIssuer ∧ witRefreshClaims.issuedAt = 0 ∧
      witRefreshClaims.expiresAt = 0 + DefaultRefreshJWTExpiry) ∧
    (witBobAccess.subject = "access" ∧ witBobAccess.userId = sampleBob.userId ∧
      witBobAccess.issuer = defaultJWTIssuer ∧ witBobAccess.issuedAt = 10 ∧
      witBobAccess.expiresAt = 10 + DefaultAccessJWTExpiry) ∧
    (witBobRefresh.subject = "refresh" ∧ witBobRefresh.userId = sampleBob.userId ∧
      witBobRefresh.issuer = defaultJWTIssuer ∧ witBobRefresh.issuedAt = 10 ∧
      witBobRefresh.expiresAt = 10 + DefaultRefreshJWTExpiry) :=
  issued_session_claims [] [sampleAlice] [sampleBob] "alice" "alice@x.com"
    "pw1" "uuid-alice" "vtok01" "bob@x.com" "pwB" 0 10 witAccessClaims
    witRefreshClaims witBobAccess witBobRefresh sampleBob (by decide)
    (by decide) (by decide)
